import Mathlib

/-!
Shallow embedding of `src/Component.js` from the repository
`evanx/component-validator`.

The embedded program is the module `Component.js`:

* `validateComponent(component)` performs structural checks on a component
  instance, throwing string messages, and for instances whose name matches
  the regex of the literal text "hello-component" anchored at the start it
  additionally awaits `start()` then `end()` (lines 36-55).
* `Component.loadModule(componentModule)` derives a name from the module
  reference, requires the module, unwraps a truthy `default` export, checks
  that the export is callable, dispatches on the "_class" source-text
  marker to either the class path (`new`, then `init`) or the factory path
  (call the export and assign the derived name), and finally validates the
  produced instance (lines 59-80).

JavaScript values appearing in component fields are modelled by `JSVal`;
the argument of `validateComponent` by `JSValue`.  Console output is not
modelled; instead the order of observable actions (module resolution,
construction, `init`, factory invocation, name assignment, lifecycle probe
calls) is recorded in an event trace, and every run returns that trace
together with an `Except` outcome.
-/

/-- Model of the JavaScript primitive values that can appear in component
fields (the `name` field in particular). -/
inductive JSVal where
  | undefined
  | null
  | vBool (b : Bool)
  | vNum (n : Int)
  | vStr (s : String)
  deriving Repr, DecidableEq

/-- JavaScript truthiness of a `JSVal` (what `!v` negates): `undefined`,
`null`, `false`, `0` and the empty string are falsy. -/
def truthy : JSVal → Bool
  | .undefined => false
  | .null => false
  | .vBool b => b
  | .vNum n => n != 0
  | .vStr s => !s.isEmpty

/-- JavaScript string coercion of a `JSVal`, as applied by
`RegExp.prototype.test` to its argument. -/
def jsToString : JSVal → String
  | .undefined => "undefined"
  | .null => "null"
  | .vBool b => if b then "true" else "false"
  | .vNum n => toString n
  | .vStr s => s

/-- Outcome of awaiting a lifecycle hook call: the returned promise either
resolves or rejects with a reason (rejection reasons are modelled as
strings). -/
inductive HookOutcome where
  | resolves
  | rejects (reason : String)
  deriving Repr, DecidableEq

/-- A `start` or `end` property of a component instance: absent, present
but not callable, or callable with the given awaited outcome. -/
inductive HookField where
  | missing
  | notCallable (v : JSVal)
  | callable (outcome : HookOutcome)
  deriving Repr, DecidableEq

/-- Whether `typeof field` is the string "function" for a hook property. -/
def isFunctionHook : HookField → Bool
  | .callable _ => true
  | _ => false

/-- The validated surface of a component instance: the fields inspected by
`validateComponent` (`name`, `start`, `end`) together with the enumerable
own keys that the entry log line lists.  The JavaScript property `end` is
named `endHook` here because `end` is a Lean keyword. -/
structure ComponentCore where
  name : JSVal
  start : HookField
  endHook : HookField
  keys : List String
  deriving Repr, DecidableEq

/-- A value passed to `validateComponent`: within `loadModule` this is
either an absent value or a component object.  (The code never hands a
non-object primitive to `validateComponent`: on the factory path a
primitive result would already fail the strict-mode name assignment.) -/
inductive JSValue where
  | undefined
  | null
  | obj (c : ComponentCore)
  deriving Repr, DecidableEq

/-- JavaScript truthiness of a `JSValue`: objects are always truthy. -/
def jsValueTruthy : JSValue → Bool
  | .undefined => false
  | .null => false
  | .obj _ => true

/-- The context bundle built by `loadModule` on line 69.  Besides `name`
it holds `props`, `logger`, `metrics` and `service`, which are the fixed
module-level singletons of `Component.js` (lines 2-26); they carry no
load-dependent data, so the bundle is determined by `name`. -/
structure State where
  name : String
  deriving Repr, DecidableEq

/-- Observable actions of a load-and-validate run, in program order.
`constructCall arg` records the single argument value handed to
`new Class(...)` (`none` models the JavaScript value `undefined`);
`initCall` and `factoryCall` record the `name` field of the state bundle
they receive. -/
inductive Event where
  | resolveModule (ref : String)
  | constructCall (arg : Option State)
  | initCall (stateName : String)
  | factoryCall (stateName : String)
  | nameAssign (name : String)
  | startCall
  | endCall
  deriving Repr, DecidableEq

/-- Errors surfaced by the embedded code: native `TypeError` values,
`require` resolution failures, and thrown strings (the code throws string
literals) or propagated promise rejection reasons. -/
inductive JSError where
  | typeError (msg : String)
  | resolution (moduleRef : String)
  | thrown (msg : String)
  deriving Repr, DecidableEq

deriving instance DecidableEq for Except

/-- Awaiting a hook call such as `component.start()`: calling a value that
is not a function raises a `TypeError`; a rejected promise rethrows its
reason at the `await`. -/
def callHook (hookName : String) : HookField → Except JSError Unit
  | .callable .resolves => .ok ()
  | .callable (.rejects r) => .error (.thrown r)
  | .missing => .error (.typeError (hookName ++ " is not a function"))
  | .notCallable _ => .error (.typeError (hookName ++ " is not a function"))

/-- The test of the regex anchored at the start of the string with literal
body "hello-component", applied on line 50: true exactly when the string
begins with that text. -/
def testReservedName (s : String) : Bool :=
  "hello-component".data.isPrefixOf s.data

/-- `validateComponent` (Component.js lines 36-55).  The entry log line
(line 37) reads `component.name` and `Object.keys(component)`, which
raises a `TypeError` when the argument is `null` or `undefined` - before
the emptiness check on line 38 can run.  Then follow the emptiness, name,
`start` and `end` checks (thrown strings) and, for names matching the
reserved pattern, the awaited `start()` then `end()` probe.  The result is
the list of lifecycle calls performed together with the outcome. -/
def validateComponent (component : JSValue) : List Event × Except JSError Unit :=
  match component with
  | .null =>
    ([], .error (.typeError "Cannot read property name of null"))
  | .undefined =>
    ([], .error (.typeError "Cannot read property name of undefined"))
  | .obj c =>
    if jsValueTruthy (.obj c) = false then
      ([], .error (.thrown "component: empty"))
    else if truthy c.name = false then
      ([], .error (.thrown "component name: empty"))
    else if isFunctionHook c.start = false then
      ([], .error (.thrown "component: start"))
    else if isFunctionHook c.endHook = false then
      ([], .error (.thrown "component: end"))
    else if testReservedName (jsToString c.name) then
      match callHook "component.start" c.start with
      | .error e => ([.startCall], .error e)
      | .ok _ =>
        match callHook "component.end" c.endHook with
        | .error e => ([.startCall, .endCall], .error e)
        | .ok _ => ([.startCall, .endCall], .ok ())
    else
      ([], .ok ())

/-- The `init` property of a constructed class instance.  A callable
`init` is a method: it receives the instance surface (the JavaScript
`this`) and the state bundle, and resolves with the possibly mutated
instance surface (class components typically assign the state fields onto
`this`), or rejects with a reason. -/
inductive InitField where
  | missing
  | notCallable (v : JSVal)
  | callable (run : ComponentCore → State → Except String ComponentCore)

/-- An object produced by invoking an export with `new`: its validated
surface plus its `init` property. -/
structure ComponentObj where
  core : ComponentCore
  init : InitField

/-- A callable module export.  `sourceText` models what
`Function.prototype.toString.call` returns for it; `construct` is its
behaviour under `new` with the single argument the code may pass (`none`
models receiving `undefined`); `call` is its behaviour when invoked as an
async factory with the state bundle (the extra positional arguments
`props, logger, metrics, service` are the fixed singletons already
determined by the bundle), resolving with the returned object or
rejecting. -/
structure Callable where
  sourceText : String
  construct : Option State → Except String ComponentObj
  call : State → Except String ComponentCore

/-- Whether the character list `needle` occurs as a contiguous run inside
the second list (an unanchored regex test for a literal pattern). -/
def hasInfixChars (needle : List Char) : List Char → Bool
  | [] => needle.isEmpty
  | c :: cs => needle.isPrefixOf (c :: cs) || hasInfixChars needle cs

/-- The test of the unanchored regex with literal body "_class" against a
source-text string. -/
def hasClassMarker (s : String) : Bool :=
  hasInfixChars "_class".data s.data

/-- `isClass` (lines 28-30): tests the "_class" marker against the
source text of the callable. -/
def isClass (Class : Callable) : Bool :=
  hasClassMarker Class.sourceText

/-- `constructComponent` (lines 32-34): `new Class(state)`.  The call site
on line 72 passes no `state` argument, i.e. `none`. -/
def constructComponent (Class : Callable) (state : Option State) :
    Except String ComponentObj :=
  Class.construct state

/-- The resolved export after at most one `default` unwrap: either a
callable, or a non-callable value recorded with its `typeof` string. -/
inductive ExportValue where
  | fn (f : Callable)
  | nonFn (typeofName : String)

/-- What `require` returns for a module: its own value, and its `default`
property when that property is present and truthy (a falsy `default`
property is never unwrapped by line 63 and is modelled as absent). -/
structure ModuleExport where
  value : ExportValue
  defaultField : Option ExportValue

/-- Lines 63-65: replace the export by its `default` property when that
property is truthy. -/
def unwrapDefault (e : ModuleExport) : ExportValue :=
  match e.defaultField with
  | some d => d
  | none => e.value

/-- The trailing run of non-separator characters of a character list (what
the greedy anchored group of the name regex captures when non-empty). -/
def trailingRun (cs : List Char) : List Char :=
  (cs.reverse.takeWhile (fun c => c != '/')).reverse

/-- Line 60: matching the reference against the regex capturing the final
run of characters other than the path separator, anchored at the end of
the string.  A reference whose final segment is empty yields no match. -/
def derivedNameOpt (ref : String) : Option String :=
  if (trailingRun ref.data).isEmpty then none
  else some (String.mk (trailingRun ref.data))

/-- Line 77: `component.name = name` - overwrites the `name` field with
the derived name and, when the property was absent, appends the key
"name" to the own keys of the object. -/
def assignName (c : ComponentCore) (n : String) : ComponentCore :=
  { c with
    name := JSVal.vStr n
    keys := if c.keys.contains "name" then c.keys else c.keys ++ ["name"] }

/-- `Component.loadModule` (lines 59-80), over a module store standing for
the `require` resolver.  Line 60 derives the name (raising a `TypeError`
when the match is null), line 62 requires the module, lines 63-68 unwrap
a truthy `default` and reject non-callable exports, lines 71-79 dispatch
on the class marker.  The source contains no `return` statement, so a
successful run resolves with `undefined`. -/
def loadModule (store : String → Option ModuleExport) (componentModule : String) :
    List Event × Except JSError JSValue :=
  match derivedNameOpt componentModule with
  | none => ([], .error (.typeError "Cannot read property 1 of null"))
  | some name =>
    match store componentModule with
    | none =>
      ([.resolveModule componentModule], .error (.resolution componentModule))
    | some moduleValue =>
      match unwrapDefault moduleValue with
      | .nonFn t =>
        ([.resolveModule componentModule],
         .error (.thrown ("componentClass " ++ t)))
      | .fn componentClass =>
        if isClass componentClass then
          match constructComponent componentClass none with
          | .error e =>
            ([.resolveModule componentModule, .constructCall none],
             .error (.thrown e))
          | .ok comp =>
            match comp.init with
            | .callable run =>
              match run comp.core { name := name } with
              | .error e =>
                ([.resolveModule componentModule, .constructCall none,
                  .initCall name], .error (.thrown e))
              | .ok core =>
                ([.resolveModule componentModule, .constructCall none,
                  .initCall name] ++ (validateComponent (.obj core)).1,
                 match (validateComponent (.obj core)).2 with
                 | .ok _ => .ok JSValue.undefined
                 | .error e => .error e)
            | _ =>
              ([.resolveModule componentModule, .constructCall none],
               .error (.typeError "component.init is not a function"))
        else
          match componentClass.call { name := name } with
          | .error e =>
            ([.resolveModule componentModule, .factoryCall name],
             .error (.thrown e))
          | .ok core =>
            ([.resolveModule componentModule, .factoryCall name,
              .nameAssign name] ++
               (validateComponent (.obj (assignName core name))).1,
             match (validateComponent (.obj (assignName core name))).2 with
             | .ok _ => .ok JSValue.undefined
             | .error e => .error e)

/-- Running `validateComponent` twice on the same argument, as in the
idempotence property of the specification. -/
def validateTwice (v : JSValue) :
    (List Event × Except JSError Unit) × (List Event × Except JSError Unit) :=
  (validateComponent v, validateComponent v)

/-! ### Concrete module fixtures

These model the test components that the repository documentation installs
(`hello-component`, `hello-component-class`) plus two failing shapes, and a
store standing for the `require` resolver over them. -/

/-- The surface returned by the `hello-component` factory fixture: hooks
`start`/`end` that resolve, and no `name` field of its own. -/
def helloFactoryCore : ComponentCore :=
  { name := JSVal.undefined
    start := HookField.callable HookOutcome.resolves
    endHook := HookField.callable HookOutcome.resolves
    keys := ["start", "end"] }

/-- The factory fixture `hello-component`: an async function whose source
text has no "_class" marker and which resolves with `helloFactoryCore`. -/
def helloFactory : Callable :=
  { sourceText := "async function createHelloComponent(state, props, logger)"
    construct := fun _ => Except.error "never invoked with new"
    call := fun _ => Except.ok helloFactoryCore }

/-- The module export of `hello-component`. -/
def helloComponentModule : ModuleExport :=
  { value := ExportValue.fn helloFactory, defaultField := none }

/-- The instance that `loadModule` builds and validates for the
`hello-component` fixture, after the name assignment of line 77. -/
def helloComponentInstance : ComponentCore :=
  { name := JSVal.vStr "hello-component"
    start := HookField.callable HookOutcome.resolves
    endHook := HookField.callable HookOutcome.resolves
    keys := ["start", "end", "name"] }

/-- The surface of a freshly constructed `hello-component-class` instance:
the lifecycle methods exist (so `typeof` sees functions) and no own keys
or `name` are set until `init` runs. -/
def helloClassFreshCore : ComponentCore :=
  { name := JSVal.undefined
    start := HookField.callable HookOutcome.resolves
    endHook := HookField.callable HookOutcome.resolves
    keys := [] }

/-- The class fixture `hello-component-class`: its transpiled source text
contains the "_class" marker, its constructor ignores its argument, and
its `init` assigns the state fields onto the instance. -/
def helloClassCallable : Callable :=
  { sourceText :=
      "function HelloComponentClass() _classCallCheck(this, HelloComponentClass)"
    construct := fun _ => Except.ok
      { core := helloClassFreshCore
        init := InitField.callable (fun self state => Except.ok
          { self with
            name := JSVal.vStr state.name
            keys := self.keys ++
              ["name", "props", "logger", "metrics", "service"] }) }
    call := fun _ => Except.error "never invoked as a factory" }

/-- The module export of `hello-component-class`. -/
def helloClassModule : ModuleExport :=
  { value := ExportValue.fn helloClassCallable, defaultField := none }

/-- A class-shaped fixture whose constructed object lacks `init`. -/
def brokenClassObj : ComponentObj :=
  { core := { name := JSVal.undefined
              start := HookField.missing
              endHook := HookField.missing
              keys := [] }
    init := InitField.missing }

/-- A class-shaped fixture export whose constructed object lacks `init`. -/
def brokenClassCallable : Callable :=
  { sourceText := "function BrokenClass() _classCallCheck(this, BrokenClass)"
    construct := fun _ => Except.ok brokenClassObj
    call := fun _ => Except.error "never invoked as a factory" }

/-- The module export of the broken class fixture. -/
def brokenClassModule : ModuleExport :=
  { value := ExportValue.fn brokenClassCallable, defaultField := none }

/-- A module whose own value is a plain object carrying a truthy `default`
property that is a string: after one unwrap the export is not callable. -/
def objectExportModule : ModuleExport :=
  { value := ExportValue.nonFn "object"
    defaultField := some (ExportValue.nonFn "string") }

/-- The module store standing for `require` over the fixtures. -/
def demoStore : String → Option ModuleExport := fun ref =>
  if ref = "hello-component" then some helloComponentModule
  else if ref = "hello-component-class" then some helloClassModule
  else if ref = "broken-class" then some brokenClassModule
  else if ref = "object-export" then some objectExportModule
  else none

/-! ### Claims -/

/-- Claim C1 (code evaluation at the failing input): for an absent (null
or undefined) instance argument, `validateComponent` raises a `TypeError`
from the entry log line reading `component.name`, not the contract error
"component: empty" that the claim states; the emptiness check on line 38
is unreachable for absent arguments. -/
theorem validateComponent_absent_typeError :
    validateComponent JSValue.null =
      ([], Except.error (JSError.typeError "Cannot read property name of null")) ∧
    validateComponent JSValue.undefined =
      ([], Except.error (JSError.typeError "Cannot read property name of undefined")) ∧
    validateComponent JSValue.null ≠
      ([], Except.error (JSError.thrown "component: empty")) ∧
    validateComponent JSValue.undefined ≠
      ([], Except.error (JSError.thrown "component: empty")) := by
  refine ⟨rfl, rfl, ?_, ?_⟩ <;> decide

/-- Claim C2 (counterexample): a fully successful load of the
`hello-component` fixture (resolution, factory call, name assignment and
validation with the lifecycle probe all succeed) resolves with
`undefined`, not with the constructed, validated component instance. -/
theorem loadModule_returns_undefined_counterexample :
    loadModule demoStore "hello-component" =
      ([Event.resolveModule "hello-component",
        Event.factoryCall "hello-component",
        Event.nameAssign "hello-component",
        Event.startCall, Event.endCall],
       Except.ok JSValue.undefined) ∧
    (Except.ok JSValue.undefined : Except JSError JSValue) ≠
      Except.ok (JSValue.obj helloComponentInstance) := by
  exact ⟨by decide, by decide⟩

/-- Claim C2 (amended): whenever `loadModule` succeeds, its promise
resolves with `undefined`: the source of `loadModule` has no `return`
statement, so the constructed, validated instance is never the resolved
value. -/
theorem loadModule_success_resolves_undefined
    (store : String → Option ModuleExport) (ref : String)
    (events : List Event) (v : JSValue)
    (h : loadModule store ref = (events, Except.ok v)) :
    v = JSValue.undefined := by
  unfold loadModule at h
  repeat' split at h
  all_goals simp_all

/-- Witness for the amended claim C2, at the `hello-component` fixture. -/
theorem loadModule_success_resolves_undefined_witness :
    JSValue.undefined = JSValue.undefined :=
  loadModule_success_resolves_undefined demoStore "hello-component"
    [Event.resolveModule "hello-component",
     Event.factoryCall "hello-component",
     Event.nameAssign "hello-component",
     Event.startCall, Event.endCall]
    JSValue.undefined (by decide)

/-- Claim C3 (code evaluation at the failing input): on the class-shaped
fixture `hello-component-class` the load succeeds, but the trace shows
that the constructor is invoked with `undefined` (the call site on line 72
passes no `state` to `constructComponent`), not with the context bundle;
`init` then receives the bundle and is awaited, and only afterwards does
validation (with its lifecycle probe) run. -/
theorem loadModule_constructs_with_undefined :
    loadModule demoStore "hello-component-class" =
      ([Event.resolveModule "hello-component-class",
        Event.constructCall none,
        Event.initCall "hello-component-class",
        Event.startCall, Event.endCall],
       Except.ok JSValue.undefined) ∧
    Event.constructCall none ≠
      Event.constructCall (some { name := "hello-component-class" }) := by
  exact ⟨by decide, by decide⟩

/-- Claim C4: for a module whose export carries the "_class" source
marker, the loader takes the class-construction path (the trace records
the `new` invocation and no factory call), and when the constructed
object lacks an `init` operation the load fails at the `init` step - the
`InitError` of the specification taxonomy, concretely the `TypeError`
raised because `component.init` is not a function - with no validation or
lifecycle event ever emitted. -/
theorem loadModule_class_missing_init
    (store : String → Option ModuleExport) (ref n : String)
    (f : Callable) (m : ModuleExport) (comp : ComponentObj)
    (hname : derivedNameOpt ref = some n)
    (hstore : store ref = some m)
    (hunwrap : unwrapDefault m = ExportValue.fn f)
    (hclass : isClass f = true)
    (hctor : f.construct none = Except.ok comp)
    (hinit : comp.init = InitField.missing) :
    loadModule store ref =
      ([Event.resolveModule ref, Event.constructCall none],
       Except.error (JSError.typeError "component.init is not a function")) := by
  simp [loadModule, constructComponent, hname, hstore, hunwrap, hclass,
    hctor, hinit]

/-- Witness for claim C4, at the broken class fixture. -/
theorem loadModule_class_missing_init_witness :
    loadModule demoStore "broken-class" =
      ([Event.resolveModule "broken-class", Event.constructCall none],
       Except.error (JSError.typeError "component.init is not a function")) :=
  loadModule_class_missing_init demoStore "broken-class" "broken-class"
    brokenClassCallable brokenClassModule brokenClassObj
    (by decide) rfl rfl (by decide) rfl rfl

/-- Claim C5: for a module whose export is a plain callable without the
"_class" marker, the loader takes the factory path (the trace records the
factory invocation and no `new`), awaits the factory result, and assigns
the name derived from the final path segment onto the returned object
before validating it; the assigned object carries that name even when the
factory set none itself. -/
theorem loadModule_factory_assigns_name
    (store : String → Option ModuleExport) (ref n : String)
    (f : Callable) (m : ModuleExport) (core : ComponentCore)
    (hname : derivedNameOpt ref = some n)
    (hstore : store ref = some m)
    (hunwrap : unwrapDefault m = ExportValue.fn f)
    (hclass : isClass f = false)
    (hcall : f.call { name := n } = Except.ok core) :
    loadModule store ref =
      ([Event.resolveModule ref, Event.factoryCall n, Event.nameAssign n] ++
         (validateComponent (JSValue.obj (assignName core n))).1,
       match (validateComponent (JSValue.obj (assignName core n))).2 with
       | Except.ok _ => Except.ok JSValue.undefined
       | Except.error e => Except.error e) ∧
    (assignName core n).name = JSVal.vStr n := by
  constructor
  · simp [loadModule, hname, hstore, hunwrap, hclass, hcall]
  · simp [assignName]

/-- Witness for claim C5, at the `hello-component` fixture, whose factory
returns an object without a `name` field. -/
theorem loadModule_factory_assigns_name_witness :
    (loadModule demoStore "hello-component" =
      ([Event.resolveModule "hello-component",
        Event.factoryCall "hello-component",
        Event.nameAssign "hello-component"] ++
         (validateComponent
           (JSValue.obj (assignName helloFactoryCore "hello-component"))).1,
       match (validateComponent
           (JSValue.obj (assignName helloFactoryCore "hello-component"))).2 with
       | Except.ok _ => Except.ok JSValue.undefined
       | Except.error e => Except.error e) ∧
     (assignName helloFactoryCore "hello-component").name =
       JSVal.vStr "hello-component") :=
  loadModule_factory_assigns_name demoStore "hello-component"
    "hello-component" helloFactory helloComponentModule helloFactoryCore
    (by decide) rfl rfl (by decide) rfl

/-- Claim C6: for a structurally valid instance whose name begins with the
reserved "hello-component" text, `validateComponent` invokes `start`
before `end`, strictly in that order and awaiting each; a rejection of
either hook propagates (the lifecycle error of the specification taxonomy
carries the rejection reason), and when `start` rejects, `end` is never
invoked - its call never appears in the trace. -/
theorem validateComponent_probe_order
    (c : ComponentCore)
    (hname : truthy c.name = true)
    (hres : testReservedName (jsToString c.name) = true) :
    (∀ r, c.start = HookField.callable (HookOutcome.rejects r) →
      isFunctionHook c.endHook = true →
      validateComponent (JSValue.obj c) =
        ([Event.startCall], Except.error (JSError.thrown r))) ∧
    (∀ r, c.start = HookField.callable HookOutcome.resolves →
      c.endHook = HookField.callable (HookOutcome.rejects r) →
      validateComponent (JSValue.obj c) =
        ([Event.startCall, Event.endCall], Except.error (JSError.thrown r))) ∧
    (c.start = HookField.callable HookOutcome.resolves →
      c.endHook = HookField.callable HookOutcome.resolves →
      validateComponent (JSValue.obj c) =
        ([Event.startCall, Event.endCall], Except.ok ())) := by
  refine ⟨fun r hs he => ?_, fun r hs he => ?_, fun hs he => ?_⟩
  · cases hE : c.endHook with
    | callable o =>
      simp [validateComponent, jsValueTruthy, callHook, isFunctionHook,
        hname, hres, hs, hE]
    | missing => rw [hE] at he; simp [isFunctionHook] at he
    | notCallable v => rw [hE] at he; simp [isFunctionHook] at he
  · simp [validateComponent, jsValueTruthy, callHook, isFunctionHook,
      hname, hres, hs, he]
  · simp [validateComponent, jsValueTruthy, callHook, isFunctionHook,
      hname, hres, hs, he]

/-- A fixture for the probe-order claim: a valid instance with the
reserved name whose `start` hook rejects. -/
def probeRejectCore : ComponentCore :=
  { name := JSVal.vStr "hello-component"
    start := HookField.callable (HookOutcome.rejects "start failed")
    endHook := HookField.callable HookOutcome.resolves
    keys := ["start", "end", "name"] }

/-- Witness for claim C6: with a rejecting `start`, only `start` is
invoked and its rejection reason propagates. -/
theorem validateComponent_probe_order_witness :
    validateComponent (JSValue.obj probeRejectCore) =
      ([Event.startCall], Except.error (JSError.thrown "start failed")) :=
  (validateComponent_probe_order probeRejectCore (by decide) (by decide)).1
    "start failed" rfl (by decide)

/-- Claim C7: on an already-valid instance whose name does not begin with
the reserved "hello-component" text, running `validateComponent` twice
yields the same non-throwing result both times; both runs perform no
lifecycle call (empty trace), so the purely structural checks leave the
instance untouched between the runs. -/
theorem validateComponent_idempotent
    (c : ComponentCore)
    (hname : truthy c.name = true)
    (hstart : isFunctionHook c.start = true)
    (hend : isFunctionHook c.endHook = true)
    (hres : testReservedName (jsToString c.name) = false) :
    validateTwice (JSValue.obj c) =
      (([], Except.ok ()), ([], Except.ok ())) := by
  simp [validateTwice, validateComponent, jsValueTruthy, hname, hstart,
    hend, hres]

/-- A fixture for the idempotence claim: a valid instance whose name does
not begin with the reserved text. -/
def plainValidCore : ComponentCore :=
  { name := JSVal.vStr "my-component"
    start := HookField.callable HookOutcome.resolves
    endHook := HookField.callable HookOutcome.resolves
    keys := ["start", "end", "name"] }

/-- Witness for claim C7, at a plainly named valid instance. -/
theorem validateComponent_idempotent_witness :
    validateTwice (JSValue.obj plainValidCore) =
      (([], Except.ok ()), ([], Except.ok ())) :=
  validateComponent_idempotent plainValidCore (by decide) (by decide)
    (by decide) (by decide)

/-- Claim C8: when the export resolved for a module - after unwrapping one
level of a truthy `default` indirection, when present - is not callable,
the load fails with the shape error (the thrown string built from
"componentClass " and the `typeof` of the export), and the trace contains
only the resolution: no construction, `init`, factory call or validation
is ever attempted. -/
theorem loadModule_shape_error
    (store : String → Option ModuleExport) (ref n t : String)
    (m : ModuleExport)
    (hname : derivedNameOpt ref = some n)
    (hstore : store ref = some m)
    (hunwrap : unwrapDefault m = ExportValue.nonFn t) :
    loadModule store ref =
      ([Event.resolveModule ref],
       Except.error (JSError.thrown ("componentClass " ++ t))) := by
  simp [loadModule, hname, hstore, hunwrap]

/-- Witness for claim C8, at a module whose truthy `default` property is
a string: the unwrapped export has `typeof` "string" and the load stops
with the shape error before any construction. -/
theorem loadModule_shape_error_witness :
    loadModule demoStore "object-export" =
      ([Event.resolveModule "object-export"],
       Except.error (JSError.thrown ("componentClass " ++ "string"))) :=
  loadModule_shape_error demoStore "object-export" "object-export" "string"
    objectExportModule (by decide) rfl rfl

/-- A fixture refuting the independence part of claim C9: its name is the
empty string (falsy) and both hooks are missing. -/
def noNameNoStartCore : ComponentCore :=
  { name := JSVal.vStr ""
    start := HookField.missing
    endHook := HookField.missing
    keys := [] }

/-- Claim C9 (counterexample): an instance whose `start` is not invocable
but whose `name` is falsy fails with "component name: empty", not with
the hook contract error the claim requires - so the hook errors are not
independent of the validity of the other fields. -/
theorem validateComponent_name_check_first_counterexample :
    validateComponent (JSValue.obj noNameNoStartCore) =
      ([], Except.error (JSError.thrown "component name: empty")) ∧
    validateComponent (JSValue.obj noNameNoStartCore) ≠
      ([], Except.error (JSError.thrown "component: start")) ∧
    validateComponent (JSValue.obj noNameNoStartCore) ≠
      ([], Except.error (JSError.thrown "component: end")) := by
  exact ⟨by decide, by decide, by decide⟩

/-- Claim C9 (amended): for every instance with a truthy `name`, if
`start` is not an invocable operation `validateComponent` fails with
"component: start" regardless of the `end` field, and if `start` is
invocable but `end` is not, it fails with "component: end" - in both
cases deterministically, with no lifecycle call.  (When `name` is falsy
the earlier name check fires instead.) -/
theorem validateComponent_missing_hooks
    (c : ComponentCore)
    (hname : truthy c.name = true) :
    (isFunctionHook c.start = false →
      validateComponent (JSValue.obj c) =
        ([], Except.error (JSError.thrown "component: start"))) ∧
    (isFunctionHook c.start = true → isFunctionHook c.endHook = false →
      validateComponent (JSValue.obj c) =
        ([], Except.error (JSError.thrown "component: end"))) := by
  refine ⟨fun hs => ?_, fun hs he => ?_⟩ <;>
    simp [validateComponent, jsValueTruthy, hname, hs, *]

/-- A fixture for the amended claim C9: a truthy name, a non-invocable
`start`, and an invocable `end`. -/
def missingStartCore : ComponentCore :=
  { name := JSVal.vStr "x"
    start := HookField.notCallable (JSVal.vNum 42)
    endHook := HookField.callable HookOutcome.resolves
    keys := ["start", "end", "name"] }

/-- Witness for the amended claim C9. -/
theorem validateComponent_missing_hooks_witness :
    validateComponent (JSValue.obj missingStartCore) =
      ([], Except.error (JSError.thrown "component: start")) :=
  (validateComponent_missing_hooks missingStartCore (by decide)).1 (by decide)

/-- Claim C10: the name derivation is partial.  For every reference
string ending in the path separator, the anchored regex yields no match
(`derivedNameOpt` is `none`), and `loadModule` raises the `TypeError`
from indexing the null match with an empty event trace - before any
module resolution, construction or validation is attempted. -/
theorem loadModule_trailing_separator
    (store : String → Option ModuleExport) (ref : String)
    (h : ref.data.getLast? = some '/') :
    derivedNameOpt ref = none ∧
    loadModule store ref =
      ([], Except.error (JSError.typeError "Cannot read property 1 of null")) := by
  have hrev : ref.data.reverse.head? = some '/' := by
    rw [List.head?_reverse]; exact h
  have htr : trailingRun ref.data = [] := by
    unfold trailingRun
    cases hr : ref.data.reverse with
    | nil => simp [hr] at hrev
    | cons c t =>
      rw [hr] at hrev
      simp at hrev
      subst hrev
      simp [List.takeWhile_cons]
  have hd : derivedNameOpt ref = none := by
    simp [derivedNameOpt, htr]
  exact ⟨hd, by simp [loadModule, hd]⟩

/-- Witness for claim C10, at the reference ending in a separator. -/
theorem loadModule_trailing_separator_witness :
    derivedNameOpt "hello/" = none ∧
    loadModule demoStore "hello/" =
      ([], Except.error (JSError.typeError "Cannot read property 1 of null")) :=
  loadModule_trailing_separator demoStore "hello/" (by decide)
